import Mathlib

/-!
# Verification of the gomomo MTN Mobile Money client library

Shallow embedding of the library's core (configuration construction and
validation, phone-number normalization, the HTTP dispatcher, and the
token-cache authenticator), translated from the Go source, together with
theorems settling the specification's claims about them.

Conventions of the embedding:
* Go strings are Lean `String`; the normalized phone strings consist only
  of ASCII digits, for which Go's byte indexing and Lean's `List Char`
  operations agree.
* Time instants are `Int` seconds; Go `time.Time` comparisons
  (`Before`) become strict `<` on `Int`.  Go's `int` arithmetic on
  `expires_in` is exact `Int` arithmetic (the values involved are far
  from 64-bit overflow).
* Network I/O is modelled by an oracle supplied to each function: the
  outcome every outbound HTTP call would have.  Each function returns,
  alongside its result, the list of network calls it issued, so
  "makes no network call" is `calls = []`.
* Go's `error` results become `Except String` (carrying the formatted
  message) or a dedicated error inductive where the claims need to
  distinguish error kinds.
-/

namespace Gomomo

/-- Environment selector (`EnvironmentType` in the Go source). -/
inductive EnvironmentType where
  | Sandbox
  | Production
deriving DecidableEq, Repr

export EnvironmentType (Sandbox Production)

/-- The library configuration (`Config` in the Go source). -/
structure Config where
  SubscriptionKey : String
  DisbursementKey : String
  TargetEnvironment : String
  CallbackHost : String
  APIUser : String
  APIKey : String
  Environment : EnvironmentType
  Currency : String
  Host : String
deriving DecidableEq, Repr

/-- `ConfigOption` from the Go source: a mutation applied to the config
during construction. -/
def ConfigOption : Type := Config → Config

def WithSubscriptionKey (key : String) : ConfigOption :=
  fun c => { c with SubscriptionKey := key }

def WithDisbursementKey (key : String) : ConfigOption :=
  fun c => { c with DisbursementKey := key }

def WithTargetEnvironment (env : String) : ConfigOption :=
  fun c => { c with TargetEnvironment := env }

def WithCallbackHost (host : String) : ConfigOption :=
  fun c => { c with CallbackHost := host }

def WithAPIUser (user : String) : ConfigOption :=
  fun c => { c with APIUser := user }

def WithAPIKey (key : String) : ConfigOption :=
  fun c => { c with APIKey := key }

def WithHost (host : String) : ConfigOption :=
  fun c => { c with Host := host }

def WithCurrency (currency : String) : ConfigOption :=
  fun c => { c with Currency := currency }

/-- The defaulting step inside `Config.Validate`:
`if c.DisbursementKey == "" { c.DisbursementKey = c.SubscriptionKey }`. -/
def Config.applyDisbursementDefault (c : Config) : Config :=
  if c.DisbursementKey = "" then { c with DisbursementKey := c.SubscriptionKey }
  else c

/-- `Config.Validate` from the Go source.  The Go method mutates the
receiver (defaulting `DisbursementKey`) and returns an `error`; here it
returns the validated (possibly defaulted) config or the error message.
The order of checks matches the source exactly; note that the production
credential check fires only when BOTH `APIUser` and `APIKey` are empty. -/
def Config.Validate (c : Config) : Except String Config :=
  if c.SubscriptionKey = "" then
    .error "subscription key is required"
  else if c.TargetEnvironment = "" then
    .error "target environment is required"
  else if c.Host = "" then
    .error "host is required"
  else if c.Environment = Production ∧ c.APIUser = "" ∧ c.APIKey = "" then
    .error "API user and key are required for production"
  else if (c.applyDisbursementDefault).Currency = "" then
    .error "currency is required"
  else
    .ok c.applyDisbursementDefault

/-- The pre-options configuration that `NewConfig` builds from the
environment-specific defaults, before any `ConfigOption` runs. -/
def defaultConfig (environment : EnvironmentType) : Config :=
  let base : Config :=
    { SubscriptionKey := "", DisbursementKey := "", TargetEnvironment := ""
      CallbackHost := "", APIUser := "", APIKey := ""
      Environment := environment, Currency := "EUR", Host := "" }
  match environment with
  | Sandbox =>
      { base with Host := "sandbox.momodeveloper.mtn.com"
                  TargetEnvironment := "sandbox" }
  | Production => { base with Currency := "" }

/-- `NewConfig` from the Go source: defaults, then the options in order,
then validation.  On validation failure Go returns `(nil, err)`, i.e. no
partial configuration; here that is the `.error` branch of `Except`. -/
def NewConfig (environment : EnvironmentType) (opts : List ConfigOption) :
    Except String Config :=
  (opts.foldl (fun c o => o c) (defaultConfig environment)).Validate

/-! ## Phone-number normalization (`formatPhoneNumber` in the Go source) -/

/-- The character class kept by the `strings.Map` call in
`formatPhoneNumber`: ASCII digits. -/
def isDigitChar (c : Char) : Bool := '0' ≤ c ∧ c ≤ '9'

/-- The country code `"231"` hard-coded in `formatPhoneNumber`. -/
def countryCode : List Char := ['2', '3', '1']

/-- Core of `formatPhoneNumber` on character lists.  Go operates on the
UTF-8 bytes of `digitsOnly`, but every retained character is an ASCII
digit (one byte each), so byte indexing, slicing, and `strings.HasPrefix`
coincide with the corresponding `List Char` operations. -/
def formatPhoneList (phone : List Char) : List Char :=
  if (phone.filter isDigitChar).head? = some '0' then
    countryCode ++ (phone.filter isDigitChar).tail
  else if ¬ (countryCode.isPrefixOf (phone.filter isDigitChar)) then
    countryCode ++ phone.filter isDigitChar
  else
    phone.filter isDigitChar

/-- `formatPhoneNumber` from the Go source: strip non-digits; replace a
leading `'0'` with `"231"`; otherwise prepend `"231"` unless the digits
already start with `"231"`. -/
def formatPhoneNumber (phone : String) : String :=
  String.mk (formatPhoneList phone.data)

/-! ## HTTP dispatcher (`Client.DoRequest` in the Go source) -/

/-- A request descriptor (`Request` in the Go source).  `body` is the
JSON-serialized body (`none` when Go's `Body` field is `nil`); request
bodies that fail to marshal are not modelled, since every body the
library constructs is a plain string map or struct. -/
structure Request where
  method : String
  path : String
  body : Option String
  headers : List (String × String)
  queryParams : List (String × String)
deriving DecidableEq, Repr

/-- An HTTP response as seen by `DoRequest`: status code and the full
body text. -/
structure HTTPResponse where
  statusCode : Nat
  body : String
deriving DecidableEq, Repr

/-- The error kinds `DoRequest` can produce, one constructor per
`fmt.Errorf` site on the response path. -/
inductive DoRequestError where
  /-- `"error making HTTP request: %w"`: transport-level failure. -/
  | transportError (msg : String)
  /-- `"API request failed with status code %d: %s"`. -/
  | apiRequestFailed (statusCode : Nat) (body : String)
  /-- `"error decoding response: %w"`. -/
  | decodeError (msg : String)
deriving DecidableEq, Repr

/-- `Client.DoRequest` from the Go source, from the point the request
has been built.  `hasResult` is whether Go's `result` output slot is
non-nil; `transport` is the outcome of `httpClient.Do`; `decode` is the
behaviour of `json.NewDecoder(resp.Body).Decode(result)` on the body
text (a parameter because it is Go standard-library code; note that on
an empty body Go's `Decode` returns `io.EOF`, an error).  The status
check and the decode guard are copied from the source: decoding is
attempted whenever `hasResult` and the status is not 204, with no test
of body emptiness. -/
def DoRequest (req : Request) (hasResult : Bool)
    (transport : Except String HTTPResponse)
    (decode : String → Except String Unit) : Except DoRequestError Unit :=
  match transport with
  | .error e => .error (.transportError e)
  | .ok resp =>
    if resp.statusCode < 200 ∨ 300 ≤ resp.statusCode then
      .error (.apiRequestFailed resp.statusCode resp.body)
    else if hasResult ∧ resp.statusCode ≠ 204 then
      match decode resp.body with
      | .error m => .error (.decodeError m)
      | .ok _ => .ok ()
    else
      .ok ()

/-- A decoder with Go's `encoding/json` behaviour on an empty stream:
`Decode` on empty input returns `io.EOF`.  Non-empty input is accepted,
which suffices for the claims (they only exercise empty bodies and
well-formed JSON bodies). -/
def goDecodeEOFOnEmpty : String → Except String Unit :=
  fun s => if s = "" then .error "EOF" else .ok ()

/-! ## Token cache / authenticator (`AuthService` in the Go source) -/

/-- The mutable token cache of an `AuthService` instance: the single
shared `accessToken` / `tokenExpiry` pair (there is one such pair per
instance, not one per product). -/
structure AuthState where
  accessToken : String
  tokenExpiry : Int
deriving DecidableEq, Repr

/-- The fresh `AuthService` state produced by `NewAuthService`: Go
zero-values, empty token and zero expiry instant. -/
def initialAuthState : AuthState := { accessToken := "", tokenExpiry := 0 }

/-- `TokenResponse` from the Go source (decoded token-endpoint body). -/
structure TokenResponse where
  access_token : String
  token_type : String
  expires_in : Int
deriving DecidableEq, Repr

/-- One outbound network call made by the authenticator, with the data
it carries that the claims inspect. -/
inductive NetCall where
  /-- `POST /v1_0/apiuser` issued by `CreateAPIUser`. -/
  | createUser (referenceID : String) (subscriptionKey : String)
  /-- `POST /v1_0/apiuser/{id}/apikey` issued by `CreateAPIKey`. -/
  | createKey (apiUserID : String) (subscriptionKey : String)
  /-- `POST` to a token path issued by the exchange step of
  `GetAccessToken`, with the subscription key and basic-auth pair it
  presents. -/
  | tokenExchange (path : String) (subscriptionKey : String)
      (apiUser : String) (apiKey : String)
deriving DecidableEq, Repr

/-- The oracle for one `GetAccessToken` invocation: the current time,
the UUID `uuid.New()` would yield, and the outcome each outbound call
would have.  `tokenResult` is keyed by the token path requested. -/
structure AuthOracle where
  now : Int
  newUUID : String
  createUserResult : Except String Unit
  createKeyResult : Except String String
  tokenResult : String → Except String TokenResponse

/-- `AuthService.CreateAPIUser` from the Go source: sandbox-only;
generates the user ID client-side and submits it; the call is issued
even when it fails. -/
def CreateAPIUser (config : Config) (o : AuthOracle) :
    Except String String × List NetCall :=
  if config.Environment ≠ Sandbox then
    (.error "creating API users is only available in sandbox mode", [])
  else
    match o.createUserResult with
    | .error e =>
        (.error ("failed to create API user: " ++ e),
         [.createUser o.newUUID config.SubscriptionKey])
    | .ok _ =>
        (.ok o.newUUID, [.createUser o.newUUID config.SubscriptionKey])

/-- `AuthService.CreateAPIKey` from the Go source: sandbox-only;
decodes `{apiKey}` from the response. -/
def CreateAPIKey (config : Config) (o : AuthOracle) (apiUserID : String) :
    Except String String × List NetCall :=
  if config.Environment ≠ Sandbox then
    (.error "creating API keys is only available in sandbox mode", [])
  else
    match o.createKeyResult with
    | .error e =>
        (.error ("failed to create API key: " ++ e),
         [.createKey apiUserID config.SubscriptionKey])
    | .ok k => (.ok k, [.createKey apiUserID config.SubscriptionKey])

/-- The cache-hit test at the top of `GetAccessToken`:
`s.accessToken != "" && time.Now().Before(s.tokenExpiry)`. -/
def cacheValid (st : AuthState) (now : Int) : Bool :=
  st.accessToken != "" && decide (now < st.tokenExpiry)

/-- The credential-resolution step of `GetAccessToken`: in sandbox mode
with either credential unset, provision a fresh pair via
`CreateAPIUser` / `CreateAPIKey`; otherwise use the configured pair. -/
def resolveCredentials (config : Config) (o : AuthOracle) :
    Except String (String × String) × List NetCall :=
  if config.Environment = Sandbox ∧ (config.APIUser = "" ∨ config.APIKey = "") then
    match CreateAPIUser config o with
    | (.error e, calls) => (.error e, calls)
    | (.ok user, calls1) =>
        match CreateAPIKey config o user with
        | (.error e, calls2) => (.error e, calls1 ++ calls2)
        | (.ok key, calls2) => (.ok (user, key), calls1 ++ calls2)
  else
    (.ok (config.APIUser, config.APIKey), [])

/-- The product switch of `GetAccessToken`: token path and subscription
key by product, or the unknown-product error. -/
def tokenPathAndKey (config : Config) (product : String) :
    Except String (String × String) :=
  if product = "collection" then
    .ok ("/collection/token/", config.SubscriptionKey)
  else if product = "disbursement" then
    .ok ("/disbursement/token/", config.DisbursementKey)
  else
    .error ("unknown product: " ++ product)

/-- `AuthService.GetAccessToken` from the Go source.  Returns the
result, the post-call cache state, and the network calls issued, in
order.  The mutex is not modelled (single-threaded embedding); the two
`time.Now()` readings in the source (cache check and expiry
computation) are both `o.now`.  Control flow follows the source: cache
check, credential resolution (sandbox provisioning happens BEFORE the
product switch), product switch, token exchange, cache update with
`tokenExpiry = now + (expires_in - 60)` seconds. -/
def GetAccessToken (config : Config) (st : AuthState) (o : AuthOracle)
    (product : String) :
    Except String String × AuthState × List NetCall :=
  if cacheValid st o.now then
    (.ok st.accessToken, st, [])
  else
    match resolveCredentials config o with
    | (.error e, calls) => (.error e, st, calls)
    | (.ok (apiUser, apiKey), pcalls) =>
        match tokenPathAndKey config product with
        | .error e => (.error e, st, pcalls)
        | .ok (tokenPath, subscriptionKey) =>
            match o.tokenResult tokenPath with
            | .error e =>
                (.error ("failed to fetch access token: " ++ e), st,
                 pcalls ++ [.tokenExchange tokenPath subscriptionKey apiUser apiKey])
            | .ok tr =>
                (.ok tr.access_token,
                 { accessToken := tr.access_token
                   tokenExpiry := o.now + (tr.expires_in - 60) },
                 pcalls ++ [.tokenExchange tokenPath subscriptionKey apiUser apiKey])

/-! ## Concrete sample data used by witnesses and counterexamples -/

/-- A sandbox configuration with an unset disbursement key, exercising
the defaulting branch. -/
def sampleConfigNoDisKey : Config :=
  { SubscriptionKey := "sub", DisbursementKey := "", TargetEnvironment := "sandbox",
    CallbackHost := "", APIUser := "", APIKey := "", Environment := Sandbox,
    Currency := "EUR", Host := "h" }

/-- A sandbox configuration with a distinct disbursement key. -/
def sampleConfigWithDisKey : Config :=
  { sampleConfigNoDisKey with DisbursementKey := "dis" }

/-- The configuration `NewConfig Sandbox [WithSubscriptionKey "sub"]`
successfully constructs. -/
def sampleSandboxBuilt : Config :=
  { SubscriptionKey := "sub", DisbursementKey := "sub", TargetEnvironment := "sandbox",
    CallbackHost := "", APIUser := "", APIKey := "", Environment := Sandbox,
    Currency := "EUR", Host := "sandbox.momodeveloper.mtn.com" }

/-- A request descriptor with no body, as used by the dispatcher
claims. -/
def sampleNoBodyRequest : Request :=
  { method := "GET", path := "/collection/v1_0/account/balance",
    body := none, headers := [], queryParams := [] }

/-- A sandbox configuration with credentials already set, so no
provisioning is needed. -/
def sampleAuthConfig : Config :=
  { SubscriptionKey := "sub", DisbursementKey := "dis", TargetEnvironment := "sandbox",
    CallbackHost := "cb", APIUser := "user", APIKey := "key", Environment := Sandbox,
    Currency := "EUR", Host := "sandbox.momodeveloper.mtn.com" }

/-- The same configuration with no credentials, forcing sandbox
provisioning. -/
def sampleAuthConfigNoCreds : Config :=
  { sampleAuthConfig with APIUser := "", APIKey := "" }

/-- An oracle at time 0 whose token endpoint returns token "T1" with
`expires_in = 3600`. -/
def sampleOracleT1 : AuthOracle :=
  { now := 0, newUUID := "uuid-1", createUserResult := .ok (),
    createKeyResult := .ok "prov-key",
    tokenResult := fun _ =>
      .ok { access_token := "T1", token_type := "Bearer", expires_in := 3600 } }

/-- An oracle at time 10 whose token endpoint would return a DIFFERENT
token "T2". -/
def sampleOracleT2 : AuthOracle :=
  { now := 10, newUUID := "uuid-2", createUserResult := .ok (),
    createKeyResult := .ok "prov-key",
    tokenResult := fun _ =>
      .ok { access_token := "T2", token_type := "Bearer", expires_in := 3600 } }

/-- An oracle at time 0 whose token endpoint returns a token that is
already stale: `expires_in = 30 ≤ 60`. -/
def sampleOracleShort : AuthOracle :=
  { now := 0, newUUID := "uuid-3", createUserResult := .ok (),
    createKeyResult := .ok "prov-key",
    tokenResult := fun _ =>
      .ok { access_token := "TS", token_type := "Bearer", expires_in := 30 } }

/-! ## Helper lemmas about phone normalization -/

/-- Every character of a `formatPhoneList` output is an ASCII digit. -/
lemma formatPhoneList_all_digits (phone : List Char) :
    (formatPhoneList phone).all isDigitChar = true := by
  have hfilter : ∀ c ∈ phone.filter isDigitChar, isDigitChar c = true := by
    intro c hc
    exact (List.mem_filter.mp hc).2
  unfold formatPhoneList
  simp only [List.all_eq_true]
  split
  · intro c hc
    rcases List.mem_append.mp hc with h | h
    · fin_cases h <;> decide
    · exact hfilter c (List.mem_of_mem_tail h)
  · split
    · intro c hc
      rcases List.mem_append.mp hc with h | h
      · fin_cases h <;> decide
      · exact hfilter c h
    · intro c hc
      exact hfilter c hc

/-- Every `formatPhoneList` output starts with the country code. -/
lemma formatPhoneList_starts_countryCode (phone : List Char) :
    countryCode.isPrefixOf (formatPhoneList phone) = true := by
  unfold formatPhoneList
  split
  · exact List.isPrefixOf_iff_prefix.mpr (List.prefix_append _ _)
  · split
    · exact List.isPrefixOf_iff_prefix.mpr (List.prefix_append _ _)
    · next h => exact not_not.mp h

/-- A list of digit characters is unchanged by the digit filter. -/
lemma filter_digits_of_all {l : List Char} (h : l.all isDigitChar = true) :
    l.filter isDigitChar = l :=
  List.filter_eq_self.mpr (List.all_eq_true.mp h)

/-- `formatPhoneList` fixes its own outputs. -/
lemma formatPhoneList_fixed (phone : List Char) :
    formatPhoneList (formatPhoneList phone) = formatPhoneList phone := by
  have hdig := formatPhoneList_all_digits phone
  have hpre := formatPhoneList_starts_countryCode phone
  obtain ⟨t, ht⟩ := List.isPrefixOf_iff_prefix.mp hpre
  generalize hx : formatPhoneList phone = x at hdig ht ⊢
  subst ht
  unfold formatPhoneList
  rw [filter_digits_of_all hdig]
  simp [countryCode, List.isPrefixOf]

/-! ## Helper lemmas about configuration validation -/

/-- The disbursement-key defaulting touches no field other than
`DisbursementKey`. -/
lemma applyDisbursementDefault_preserves (c : Config) :
    (c.applyDisbursementDefault).SubscriptionKey = c.SubscriptionKey ∧
    (c.applyDisbursementDefault).TargetEnvironment = c.TargetEnvironment ∧
    (c.applyDisbursementDefault).Host = c.Host ∧
    (c.applyDisbursementDefault).Currency = c.Currency ∧
    (c.applyDisbursementDefault).Environment = c.Environment ∧
    (c.applyDisbursementDefault).APIUser = c.APIUser ∧
    (c.applyDisbursementDefault).APIKey = c.APIKey := by
  unfold Config.applyDisbursementDefault
  split <;> exact ⟨rfl, rfl, rfl, rfl, rfl, rfl, rfl⟩

/-- What a successful `Validate` implies: the returned config is the
input with the disbursement default applied, and the fields the source
checks are non-empty. -/
lemma Validate_ok_inv (c c1 : Config) (h : c.Validate = .ok c1) :
    c1 = c.applyDisbursementDefault ∧
    c.SubscriptionKey ≠ "" ∧ c.TargetEnvironment ≠ "" ∧ c.Host ≠ "" ∧
    c1.Currency ≠ "" ∧
    ¬ (c.Environment = Production ∧ c.APIUser = "" ∧ c.APIKey = "") := by
  unfold Config.Validate at h
  split_ifs at h with h1 h2 h3 h4 h5
  injection h with h
  exact ⟨h.symm, h1, h2, h3, by rw [h] at h5; exact h5, h4⟩

/-- `Validate` fails whenever one of the checked fields is empty. -/
lemma Validate_error_of_missing (c : Config)
    (h : c.SubscriptionKey = "" ∨ c.TargetEnvironment = "" ∨ c.Host = "" ∨
         c.Currency = "" ∨
         (c.Environment = Production ∧ c.APIUser = "" ∧ c.APIKey = "")) :
    ∃ e, c.Validate = .error e := by
  unfold Config.Validate
  split_ifs with h1 h2 h3 h4 h5
  case pos => exact ⟨_, rfl⟩
  case pos => exact ⟨_, rfl⟩
  case pos => exact ⟨_, rfl⟩
  case pos => exact ⟨_, rfl⟩
  case pos => exact ⟨_, rfl⟩
  case neg =>
    exfalso
    rcases h with h | h | h | h | h
    · exact h1 h
    · exact h2 h
    · exact h3 h
    · exact h5 ((applyDisbursementDefault_preserves c).2.2.2.1.trans h)
    · exact h4 h

/-! ## Helper lemmas about the authenticator -/

lemma CreateAPIUser_sandbox_error (config : Config) (o : AuthOracle) (e : String)
    (hs : config.Environment = Sandbox) (hu : o.createUserResult = .error e) :
    CreateAPIUser config o =
      (.error ("failed to create API user: " ++ e),
       [.createUser o.newUUID config.SubscriptionKey]) := by
  unfold CreateAPIUser
  rw [if_neg (not_not_intro hs), hu]

lemma CreateAPIUser_sandbox_ok (config : Config) (o : AuthOracle)
    (hs : config.Environment = Sandbox) (hu : o.createUserResult = .ok ()) :
    CreateAPIUser config o =
      (.ok o.newUUID, [.createUser o.newUUID config.SubscriptionKey]) := by
  unfold CreateAPIUser
  rw [if_neg (not_not_intro hs), hu]

lemma CreateAPIKey_sandbox_error (config : Config) (o : AuthOracle) (u e : String)
    (hs : config.Environment = Sandbox) (hk : o.createKeyResult = .error e) :
    CreateAPIKey config o u =
      (.error ("failed to create API key: " ++ e),
       [.createKey u config.SubscriptionKey]) := by
  unfold CreateAPIKey
  rw [if_neg (not_not_intro hs), hk]

lemma CreateAPIKey_sandbox_ok (config : Config) (o : AuthOracle) (u key : String)
    (hs : config.Environment = Sandbox) (hk : o.createKeyResult = .ok key) :
    CreateAPIKey config o u = (.ok key, [.createKey u config.SubscriptionKey]) := by
  unfold CreateAPIKey
  rw [if_neg (not_not_intro hs), hk]

/-- When no provisioning is needed, `GetAccessToken` uses the configured
credentials and issues no provisioning call. -/
lemma resolveCredentials_not_needed (config : Config) (o : AuthOracle)
    (h : ¬ (config.Environment = Sandbox ∧ (config.APIUser = "" ∨ config.APIKey = ""))) :
    resolveCredentials config o = (.ok (config.APIUser, config.APIKey), []) := by
  unfold resolveCredentials
  rw [if_neg h]

/-- Provisioning path, user-creation failure. -/
lemma resolveCredentials_user_error (config : Config) (o : AuthOracle) (e : String)
    (hs : config.Environment = Sandbox ∧ (config.APIUser = "" ∨ config.APIKey = ""))
    (hu : o.createUserResult = .error e) :
    resolveCredentials config o =
      (.error ("failed to create API user: " ++ e),
       [.createUser o.newUUID config.SubscriptionKey]) := by
  unfold resolveCredentials
  rw [if_pos hs, CreateAPIUser_sandbox_error config o e hs.1 hu]

/-- Provisioning path, key-creation failure. -/
lemma resolveCredentials_key_error (config : Config) (o : AuthOracle) (e : String)
    (hs : config.Environment = Sandbox ∧ (config.APIUser = "" ∨ config.APIKey = ""))
    (hu : o.createUserResult = .ok ()) (hk : o.createKeyResult = .error e) :
    resolveCredentials config o =
      (.error ("failed to create API key: " ++ e),
       [.createUser o.newUUID config.SubscriptionKey,
        .createKey o.newUUID config.SubscriptionKey]) := by
  unfold resolveCredentials
  rw [if_pos hs, CreateAPIUser_sandbox_ok config o hs.1 hu]
  dsimp only
  rw [CreateAPIKey_sandbox_error config o o.newUUID e hs.1 hk]
  rfl

/-- Provisioning path, both calls succeed. -/
lemma resolveCredentials_provision_ok (config : Config) (o : AuthOracle) (key : String)
    (hs : config.Environment = Sandbox ∧ (config.APIUser = "" ∨ config.APIKey = ""))
    (hu : o.createUserResult = .ok ()) (hk : o.createKeyResult = .ok key) :
    resolveCredentials config o =
      (.ok (o.newUUID, key),
       [.createUser o.newUUID config.SubscriptionKey,
        .createKey o.newUUID config.SubscriptionKey]) := by
  unfold resolveCredentials
  rw [if_pos hs, CreateAPIUser_sandbox_ok config o hs.1 hu]
  dsimp only
  rw [CreateAPIKey_sandbox_ok config o o.newUUID key hs.1 hk]
  rfl

/-- A failing credential resolution has issued at least one call. -/
lemma resolveCredentials_error_calls (config : Config) (o : AuthOracle)
    (e : String) (calls : List NetCall)
    (h : resolveCredentials config o = (.error e, calls)) : calls ≠ [] := by
  by_cases hs : config.Environment = Sandbox ∧ (config.APIUser = "" ∨ config.APIKey = "")
  · cases hu : o.createUserResult with
    | error eu =>
        rw [resolveCredentials_user_error config o eu hs hu] at h
        have h2 : [NetCall.createUser o.newUUID config.SubscriptionKey] = calls :=
          congrArg Prod.snd h
        rw [← h2]
        simp
    | ok u =>
        cases u
        cases hk : o.createKeyResult with
        | error ek =>
            rw [resolveCredentials_key_error config o ek hs hu hk] at h
            have h2 : [NetCall.createUser o.newUUID config.SubscriptionKey,
                       NetCall.createKey o.newUUID config.SubscriptionKey] = calls :=
              congrArg Prod.snd h
            rw [← h2]
            simp
        | ok key =>
            rw [resolveCredentials_provision_ok config o key hs hu hk] at h
            exact absurd (congrArg Prod.fst h) (by simp)
  · rw [resolveCredentials_not_needed config o hs] at h
    exact absurd (congrArg Prod.fst h) (by simp)

/-- Credential resolution never issues a token-exchange call. -/
lemma resolveCredentials_no_tokenExchange (config : Config) (o : AuthOracle)
    (p sk au ak : String) :
    NetCall.tokenExchange p sk au ak ∉ (resolveCredentials config o).2 := by
  by_cases hs : config.Environment = Sandbox ∧ (config.APIUser = "" ∨ config.APIKey = "")
  · cases hu : o.createUserResult with
    | error eu =>
        rw [resolveCredentials_user_error config o eu hs hu]
        simp
    | ok u =>
        cases u
        cases hk : o.createKeyResult with
        | error ek =>
            rw [resolveCredentials_key_error config o ek hs hu hk]
            simp
        | ok key =>
            rw [resolveCredentials_provision_ok config o key hs hu hk]
            simp
  · rw [resolveCredentials_not_needed config o hs]
    simp

lemma tokenPathAndKey_unknown (config : Config) (product : String)
    (h1 : product ≠ "collection") (h2 : product ≠ "disbursement") :
    tokenPathAndKey config product = .error ("unknown product: " ++ product) := by
  unfold tokenPathAndKey
  rw [if_neg h1, if_neg h2]

/-- Cache-hit branch of `GetAccessToken`. -/
lemma GetAccessToken_cache_hit_eq (config : Config) (st : AuthState) (o : AuthOracle)
    (product : String) (h : cacheValid st o.now = true) :
    GetAccessToken config st o product = (.ok st.accessToken, st, []) := by
  unfold GetAccessToken
  rw [if_pos h]

/-- Credential-resolution failure branch of `GetAccessToken`. -/
lemma GetAccessToken_cred_error_eq (config : Config) (st : AuthState) (o : AuthOracle)
    (product e : String) (calls : List NetCall)
    (hc : cacheValid st o.now = false)
    (hcred : resolveCredentials config o = (.error e, calls)) :
    GetAccessToken config st o product = (.error e, st, calls) := by
  unfold GetAccessToken
  rw [if_neg (by simp [hc]), hcred]

/-- Unknown-product branch of `GetAccessToken`. -/
lemma GetAccessToken_unknown_eq (config : Config) (st : AuthState) (o : AuthOracle)
    (product e u k : String) (pcalls : List NetCall)
    (hc : cacheValid st o.now = false)
    (hcred : resolveCredentials config o = (.ok (u, k), pcalls))
    (hpath : tokenPathAndKey config product = .error e) :
    GetAccessToken config st o product = (.error e, st, pcalls) := by
  unfold GetAccessToken
  rw [if_neg (by simp [hc]), hcred, hpath]

/-- Token-exchange failure branch of `GetAccessToken`. -/
lemma GetAccessToken_exchange_error_eq (config : Config) (st : AuthState) (o : AuthOracle)
    (product path sk u k e : String) (pcalls : List NetCall)
    (hc : cacheValid st o.now = false)
    (hcred : resolveCredentials config o = (.ok (u, k), pcalls))
    (hpath : tokenPathAndKey config product = .ok (path, sk))
    (htok : o.tokenResult path = .error e) :
    GetAccessToken config st o product =
      (.error ("failed to fetch access token: " ++ e), st,
       pcalls ++ [.tokenExchange path sk u k]) := by
  unfold GetAccessToken
  rw [if_neg (by simp [hc]), hcred]
  dsimp only
  rw [hpath]
  dsimp only
  rw [htok]

/-- Successful-fetch branch of `GetAccessToken`. -/
lemma GetAccessToken_fetch_eq (config : Config) (st : AuthState) (o : AuthOracle)
    (product path sk u k : String) (pcalls : List NetCall) (tr : TokenResponse)
    (hc : cacheValid st o.now = false)
    (hcred : resolveCredentials config o = (.ok (u, k), pcalls))
    (hpath : tokenPathAndKey config product = .ok (path, sk))
    (htok : o.tokenResult path = .ok tr) :
    GetAccessToken config st o product =
      (.ok tr.access_token,
       { accessToken := tr.access_token, tokenExpiry := o.now + (tr.expires_in - 60) },
       pcalls ++ [.tokenExchange path sk u k]) := by
  unfold GetAccessToken
  rw [if_neg (by simp [hc]), hcred]
  dsimp only
  rw [hpath]
  dsimp only
  rw [htok]

/-- Whenever `GetAccessToken` returns a token successfully, the
post-call cache holds exactly that token: both success paths (cache hit,
fresh fetch) store the returned string in the single shared field. -/
lemma GetAccessToken_ok_token (config : Config) (st : AuthState) (o : AuthOracle)
    (product t : String) (st1 : AuthState) (calls : List NetCall)
    (h : GetAccessToken config st o product = (.ok t, st1, calls)) :
    st1.accessToken = t := by
  by_cases hc : cacheValid st o.now = true
  · rw [GetAccessToken_cache_hit_eq config st o product hc] at h
    have h1 : Except.ok (ε := String) st.accessToken = Except.ok t := congrArg Prod.fst h
    have h2 : st = st1 := congrArg (fun x => x.2.1) h
    rw [← h2]
    exact Except.ok.inj h1
  · replace hc : cacheValid st o.now = false := by
      cases hcv : cacheValid st o.now
      · rfl
      · exact absurd hcv hc
    rcases hcred : resolveCredentials config o with ⟨res, pcalls⟩
    cases res with
    | error e =>
        rw [GetAccessToken_cred_error_eq config st o product e pcalls hc hcred] at h
        exact absurd (congrArg Prod.fst h) (by simp)
    | ok cred =>
        rcases cred with ⟨u, k⟩
        cases hpath : tokenPathAndKey config product with
        | error e =>
            rw [GetAccessToken_unknown_eq config st o product e u k pcalls hc hcred hpath] at h
            exact absurd (congrArg Prod.fst h) (by simp)
        | ok ps =>
            rcases ps with ⟨path, sk⟩
            cases htok : o.tokenResult path with
            | error e =>
                rw [GetAccessToken_exchange_error_eq config st o product
                      path sk u k e pcalls hc hcred hpath htok] at h
                exact absurd (congrArg Prod.fst h) (by simp)
            | ok tr =>
                rw [GetAccessToken_fetch_eq config st o product
                      path sk u k pcalls tr hc hcred hpath htok] at h
                have h1 : Except.ok (ε := String) tr.access_token = Except.ok t :=
                  congrArg Prod.fst h
                have h2 : ({ accessToken := tr.access_token,
                             tokenExpiry := o.now + (tr.expires_in - 60) } : AuthState) = st1 :=
                  congrArg (fun x => x.2.1) h
                rw [← h2]
                exact Except.ok.inj h1

/-- Once past the cache check with a valid product, `GetAccessToken`
always issues at least one network call. -/
lemma GetAccessToken_calls_ne_nil (config : Config) (st : AuthState) (o : AuthOracle)
    (product path sk : String)
    (hc : cacheValid st o.now = false)
    (hpath : tokenPathAndKey config product = .ok (path, sk)) :
    (GetAccessToken config st o product).2.2 ≠ [] := by
  rcases hcred : resolveCredentials config o with ⟨res, pcalls⟩
  cases res with
  | error e =>
      rw [GetAccessToken_cred_error_eq config st o product e pcalls hc hcred]
      exact resolveCredentials_error_calls config o e pcalls hcred
  | ok cred =>
      rcases cred with ⟨u, k⟩
      cases htok : o.tokenResult path with
      | error e =>
          rw [GetAccessToken_exchange_error_eq config st o product
                path sk u k e pcalls hc hcred hpath htok]
          simp
      | ok tr =>
          rw [GetAccessToken_fetch_eq config st o product
                path sk u k pcalls tr hc hcred hpath htok]
          simp

/-! ## Claim theorems -/

/-- C7: phone normalization first strips all non-digit characters, then:
if the result starts with "0" that leading zero is replaced with the
country code "231"; otherwise "231" is prepended unless the result
already starts with "231"; in particular "0733123454" and "733123454"
both map to "231733123454" and "231733123454" is unchanged. -/
theorem formatPhoneNumber_normalization :
    (∀ s : String, (s.data.filter isDigitChar).head? = some '0' →
        formatPhoneNumber s =
          String.mk (countryCode ++ (s.data.filter isDigitChar).tail)) ∧
    (∀ s : String, (s.data.filter isDigitChar).head? ≠ some '0' →
        countryCode.isPrefixOf (s.data.filter isDigitChar) = false →
        formatPhoneNumber s = String.mk (countryCode ++ s.data.filter isDigitChar)) ∧
    (∀ s : String, (s.data.filter isDigitChar).head? ≠ some '0' →
        countryCode.isPrefixOf (s.data.filter isDigitChar) = true →
        formatPhoneNumber s = String.mk (s.data.filter isDigitChar)) ∧
    formatPhoneNumber "0733123454" = "231733123454" ∧
    formatPhoneNumber "733123454" = "231733123454" ∧
    formatPhoneNumber "231733123454" = "231733123454" := by
  refine ⟨?_, ?_, ?_, by decide, by decide, by decide⟩
  · intro s h
    unfold formatPhoneNumber formatPhoneList
    rw [if_pos h]
  · intro s h1 h2
    unfold formatPhoneNumber formatPhoneList
    rw [if_neg h1, if_pos (by simp [h2])]
  · intro s h1 h2
    unfold formatPhoneNumber formatPhoneList
    rw [if_neg h1, if_neg (by simp [h2])]

/-- Witness for C7: the three hypothesis-bearing branches of
`formatPhoneNumber_normalization` at concrete inputs. -/
theorem formatPhoneNumber_normalization_witness :
    formatPhoneNumber "0733123454" =
        String.mk (countryCode ++ ("0733123454".data.filter isDigitChar).tail) ∧
    formatPhoneNumber "733123454" =
        String.mk (countryCode ++ "733123454".data.filter isDigitChar) ∧
    formatPhoneNumber "231733123454" =
        String.mk ("231733123454".data.filter isDigitChar) :=
  ⟨formatPhoneNumber_normalization.1 "0733123454" (by decide),
   formatPhoneNumber_normalization.2.1 "733123454" (by decide) (by decide),
   formatPhoneNumber_normalization.2.2.1 "231733123454" (by decide) (by decide)⟩

/-- C10: phone normalization is idempotent, its output consists only of
digits and always starts with "231", and the empty input yields "231". -/
theorem formatPhoneNumber_idempotent :
    (∀ s : String, formatPhoneNumber (formatPhoneNumber s) = formatPhoneNumber s) ∧
    (∀ s : String, (formatPhoneNumber s).data.all isDigitChar = true) ∧
    (∀ s : String, countryCode.isPrefixOf (formatPhoneNumber s).data = true) ∧
    formatPhoneNumber "" = "231" := by
  refine ⟨?_, ?_, ?_, by decide⟩
  · intro s
    show String.mk (formatPhoneList (String.mk (formatPhoneList s.data)).data)
        = String.mk (formatPhoneList s.data)
    exact congrArg String.mk (formatPhoneList_fixed s.data)
  · intro s
    exact formatPhoneList_all_digits s.data
  · intro s
    exact formatPhoneList_starts_countryCode s.data

/-- C9: for every configuration that passes validation, an empty
disbursement key is silently defaulted to the subscription key, and a
non-empty one is left unchanged. -/
theorem Validate_disbursementKey_default :
    ∀ c c1 : Config, c.Validate = .ok c1 →
      (c.DisbursementKey = "" → c1.DisbursementKey = c.SubscriptionKey) ∧
      (c.DisbursementKey ≠ "" → c1.DisbursementKey = c.DisbursementKey) := by
  intro c c1 h
  obtain ⟨heq, -⟩ := Validate_ok_inv c c1 h
  subst heq
  unfold Config.applyDisbursementDefault
  constructor
  · intro hd
    rw [if_pos hd]
  · intro hd
    rw [if_neg hd]

/-- Witness for C9: both branches of `Validate_disbursementKey_default`
at concrete configurations. -/
theorem Validate_disbursementKey_default_witness :
    ({ sampleConfigNoDisKey with DisbursementKey := "sub" } : Config).DisbursementKey =
        sampleConfigNoDisKey.SubscriptionKey ∧
    sampleConfigWithDisKey.DisbursementKey = sampleConfigWithDisKey.DisbursementKey :=
  ⟨(Validate_disbursementKey_default sampleConfigNoDisKey
      { sampleConfigNoDisKey with DisbursementKey := "sub" } rfl).1 rfl,
   (Validate_disbursementKey_default sampleConfigWithDisKey
      sampleConfigWithDisKey rfl).2 (by decide)⟩

/-- Counterexample for C4: in production mode, `NewConfig` succeeds with
the API user set but the API key empty, because the source's check
`c.Environment == Production && c.APIUser == "" && c.APIKey == ""` fires
only when BOTH are empty.  The claim's "construction fails whenever the
configuration is missing (in production mode) the API user/key pair" and
its invariant "production mode additionally has a user/key pair" are
therefore false: here construction succeeds with `APIKey = ""`. -/
theorem NewConfig_production_missing_key_counterexample :
    NewConfig Production
        [WithSubscriptionKey "sub", WithHost "host", WithTargetEnvironment "prod",
         WithCurrency "USD", WithAPIUser "user"] =
      .ok { SubscriptionKey := "sub", DisbursementKey := "sub", TargetEnvironment := "prod",
            CallbackHost := "", APIUser := "user", APIKey := "",
            Environment := Production, Currency := "USD", Host := "host" } := rfl

/-- C4 (amended): `NewConfig` fails with a configuration error whenever
the configuration after defaults and options is missing the subscription
key, the target environment, the host, the currency, or — in production
mode — is missing BOTH the API user and the API key; on failure no
partial configuration is returned (the error branch carries only the
message).  Consequently subscription key, target environment, host and
currency are always non-empty after successful construction, and
production mode additionally has at least one of the API user / API key
non-empty (not necessarily both — see the counterexample). -/
theorem NewConfig_validation (environment : EnvironmentType) (opts : List ConfigOption) :
    (∀ c1, NewConfig environment opts = .ok c1 →
        c1.SubscriptionKey ≠ "" ∧ c1.TargetEnvironment ≠ "" ∧ c1.Host ≠ "" ∧
        c1.Currency ≠ "" ∧
        ¬ (c1.Environment = Production ∧ c1.APIUser = "" ∧ c1.APIKey = "")) ∧
    ((opts.foldl (fun c o => o c) (defaultConfig environment)).SubscriptionKey = "" ∨
     (opts.foldl (fun c o => o c) (defaultConfig environment)).TargetEnvironment = "" ∨
     (opts.foldl (fun c o => o c) (defaultConfig environment)).Host = "" ∨
     (opts.foldl (fun c o => o c) (defaultConfig environment)).Currency = "" ∨
     ((opts.foldl (fun c o => o c) (defaultConfig environment)).Environment = Production ∧
      (opts.foldl (fun c o => o c) (defaultConfig environment)).APIUser = "" ∧
      (opts.foldl (fun c o => o c) (defaultConfig environment)).APIKey = "") →
       ∃ e, NewConfig environment opts = .error e) := by
  constructor
  · intro c1 h
    unfold NewConfig at h
    obtain ⟨heq, hsub, htgt, hhost, hcur, hcred⟩ :=
      Validate_ok_inv (opts.foldl (fun c o => o c) (defaultConfig environment)) c1 h
    obtain ⟨psub, ptgt, phost, -, penv, puser, pkey⟩ :=
      applyDisbursementDefault_preserves (opts.foldl (fun c o => o c) (defaultConfig environment))
    subst heq
    refine ⟨by rw [psub]; exact hsub, by rw [ptgt]; exact htgt,
            by rw [phost]; exact hhost, hcur, ?_⟩
    rw [penv, puser, pkey]
    exact hcred
  · intro h
    exact Validate_error_of_missing _ h

/-- Witness for C4: the success direction at a validated sandbox
configuration, and the failure direction at the empty production
configuration. -/
theorem NewConfig_validation_witness :
    (sampleSandboxBuilt.SubscriptionKey ≠ "" ∧
     sampleSandboxBuilt.TargetEnvironment ≠ "" ∧
     sampleSandboxBuilt.Host ≠ "" ∧
     sampleSandboxBuilt.Currency ≠ "" ∧
     ¬ (sampleSandboxBuilt.Environment = Production ∧
        sampleSandboxBuilt.APIUser = "" ∧ sampleSandboxBuilt.APIKey = "")) ∧
    (∃ e, NewConfig Production [] = .error e) :=
  ⟨(NewConfig_validation Sandbox [WithSubscriptionKey "sub"]).1 sampleSandboxBuilt rfl,
   (NewConfig_validation Production []).2 (by decide)⟩

/-- Counterexample for C5: the source's decode guard is
`result != nil && resp.StatusCode != http.StatusNoContent` — it never
inspects body emptiness.  With an output slot, a 200 response and an
empty body, `DoRequest` therefore hands the empty body to
`json.Decode`, which fails with `io.EOF` (modelled by
`goDecodeEOFOnEmpty`), so the call ends in a decode error.  This
refutes both "decodes only when the response body is non-empty" and
"a 2xx response with an empty body and an output slot completes
without a decode error". -/
theorem DoRequest_empty_body_counterexample :
    DoRequest sampleNoBodyRequest true
        (.ok { statusCode := 200, body := "" }) goDecodeEOFOnEmpty =
      .error (.decodeError "EOF") := rfl

/-- C5 (amended): the dispatcher decodes a JSON result exactly when an
output slot is given and the status is not 204 ("no content"),
regardless of body emptiness.  A request whose response is HTTP 204
completes successfully without attempting to decode, even when an
output slot is supplied (the result is `.ok` for EVERY decoder, so the
decoder is never consulted); without an output slot any 2xx response
completes successfully; but a 2xx non-204 response with an output slot
always invokes the decoder on the body — on an empty body Go's decoder
fails with `io.EOF`, so such a call ends in a decode error rather than
completing (see the counterexample). -/
theorem DoRequest_decode_guard (req : Request) (resp : HTTPResponse)
    (hasResult : Bool) (decode : String → Except String Unit) :
    (resp.statusCode = 204 →
        DoRequest req hasResult (.ok resp) decode = .ok ()) ∧
    (200 ≤ resp.statusCode → resp.statusCode < 300 → hasResult = false →
        DoRequest req hasResult (.ok resp) decode = .ok ()) ∧
    (200 ≤ resp.statusCode → resp.statusCode < 300 → resp.statusCode ≠ 204 →
        hasResult = true →
        DoRequest req hasResult (.ok resp) decode =
          match decode resp.body with
          | .error m => .error (.decodeError m)
          | .ok _ => .ok ()) := by
  refine ⟨?_, ?_, ?_⟩
  · intro h204
    simp only [DoRequest]
    rw [if_neg (by omega), if_neg (by simp [h204])]
  · intro hlo hhi hres
    simp only [DoRequest]
    rw [if_neg (by omega), if_neg (by simp [hres])]
  · intro hlo hhi h204 hres
    simp only [DoRequest]
    rw [if_neg (by omega), if_pos ⟨by simp [hres], h204⟩]

/-- Witness for C5: all three branches of `DoRequest_decode_guard` at a
204 response, a 200 response with no output slot, and a 200 response
with an output slot and empty body. -/
theorem DoRequest_decode_guard_witness :
    DoRequest sampleNoBodyRequest true
        (.ok { statusCode := 204, body := "" }) goDecodeEOFOnEmpty = .ok () ∧
    DoRequest sampleNoBodyRequest false
        (.ok { statusCode := 200, body := "" }) goDecodeEOFOnEmpty = .ok () ∧
    DoRequest sampleNoBodyRequest true
        (.ok { statusCode := 200, body := "" }) goDecodeEOFOnEmpty =
      (match goDecodeEOFOnEmpty "" with
       | .error m => .error (.decodeError m)
       | .ok _ => .ok ()) :=
  ⟨(DoRequest_decode_guard sampleNoBodyRequest { statusCode := 204, body := "" }
      true goDecodeEOFOnEmpty).1 rfl,
   (DoRequest_decode_guard sampleNoBodyRequest { statusCode := 200, body := "" }
      false goDecodeEOFOnEmpty).2.1 (by decide) (by decide) rfl,
   (DoRequest_decode_guard sampleNoBodyRequest { statusCode := 200, body := "" }
      true goDecodeEOFOnEmpty).2.2 (by decide) (by decide) (by decide) rfl⟩

/-- C8: a response with HTTP status outside [200,300) makes `DoRequest`
fail with the API-request-failure error carrying exactly the numeric
status code and the raw response body text, for every request, output
slot and decoder; a status inside [200,300) never produces that error
kind (the call either succeeds or fails with a decode error). -/
theorem DoRequest_status_check (req : Request) (resp : HTTPResponse)
    (hasResult : Bool) (decode : String → Except String Unit) :
    ((resp.statusCode < 200 ∨ 300 ≤ resp.statusCode) →
        DoRequest req hasResult (.ok resp) decode =
          .error (.apiRequestFailed resp.statusCode resp.body)) ∧
    (200 ≤ resp.statusCode → resp.statusCode < 300 →
        DoRequest req hasResult (.ok resp) decode = .ok () ∨
        ∃ m, DoRequest req hasResult (.ok resp) decode = .error (.decodeError m)) := by
  constructor
  · intro h
    simp only [DoRequest]
    rw [if_pos h]
  · intro hlo hhi
    simp only [DoRequest]
    rw [if_neg (by omega)]
    split
    · split
      · next m heq => exact Or.inr ⟨m, rfl⟩
      · exact Or.inl rfl
    · exact Or.inl rfl

/-- Witness for C8: a 403 response with body "Forbidden" surfaces the
API-request-failure error with status 403 and that body verbatim, and a
202 response with no expected output completes successfully. -/
theorem DoRequest_status_check_witness :
    DoRequest sampleNoBodyRequest false
        (.ok { statusCode := 403, body := "Forbidden" }) goDecodeEOFOnEmpty =
      .error (.apiRequestFailed 403 "Forbidden") ∧
    (DoRequest sampleNoBodyRequest false
        (.ok { statusCode := 202, body := "" }) goDecodeEOFOnEmpty = .ok () ∨
     ∃ m, DoRequest sampleNoBodyRequest false
        (.ok { statusCode := 202, body := "" }) goDecodeEOFOnEmpty =
          .error (.decodeError m)) :=
  ⟨(DoRequest_status_check sampleNoBodyRequest { statusCode := 403, body := "Forbidden" }
      false goDecodeEOFOnEmpty).1 (by decide),
   (DoRequest_status_check sampleNoBodyRequest { statusCode := 202, body := "" }
      false goDecodeEOFOnEmpty).2 (by decide) (by decide)⟩

/-- C2: when a cached token exists (non-empty) and the current time is
strictly before the stored expiry, `GetAccessToken` returns exactly the
cached token, makes zero network calls and leaves the cache unchanged —
for EVERY product argument; in particular a second call within the
cached expiry window returns the identical token string as the first. -/
theorem GetAccessToken_cached :
    (∀ (config : Config) (st : AuthState) (o : AuthOracle) (product : String),
        st.accessToken ≠ "" → o.now < st.tokenExpiry →
        GetAccessToken config st o product = (.ok st.accessToken, st, [])) ∧
    (∀ (config : Config) (st0 st1 : AuthState) (o1 o2 : AuthOracle)
        (p1 p2 t : String) (calls1 : List NetCall),
        GetAccessToken config st0 o1 p1 = (.ok t, st1, calls1) →
        st1.accessToken ≠ "" → o2.now < st1.tokenExpiry →
        GetAccessToken config st1 o2 p2 = (.ok t, st1, [])) := by
  have hhit : ∀ (config : Config) (st : AuthState) (o : AuthOracle) (product : String),
      st.accessToken ≠ "" → o.now < st.tokenExpiry →
      GetAccessToken config st o product = (.ok st.accessToken, st, []) := by
    intro config st o product h1 h2
    exact GetAccessToken_cache_hit_eq config st o product (by simp [cacheValid, h1, h2])
  refine ⟨hhit, ?_⟩
  intro config st0 st1 o1 o2 p1 p2 t calls1 h h1 h2
  have ht := GetAccessToken_ok_token config st0 o1 p1 t st1 calls1 h
  rw [hhit config st1 o2 p2 h1 h2, ht]

/-- Witness for C2: a first call that fetched token "T1", followed by a
second call inside the expiry window (even for the other product),
returns "T1" again with an empty call list. -/
theorem GetAccessToken_cached_witness :
    GetAccessToken sampleAuthConfig { accessToken := "T1", tokenExpiry := 3540 }
        sampleOracleT2 "collection" =
      (.ok "T1", { accessToken := "T1", tokenExpiry := 3540 }, []) :=
  GetAccessToken_cached.2 sampleAuthConfig initialAuthState
    { accessToken := "T1", tokenExpiry := 3540 } sampleOracleT1 sampleOracleT2
    "collection" "collection" "T1" [.tokenExchange "/collection/token/" "sub" "user" "key"]
    rfl (by decide) (by decide)

/-- C6: after a successful token exchange the cached expiry is
`now + (expires_in - 60)` seconds; with `expires_in = 3600` that is
`now + 3540` exactly (the model has no clock drift, so "within a few
seconds tolerance" is exact); and for every `expires_in ≤ 60` the
resulting expiry is not in the future (`≤ now`), so the cache-hit test
fails at every later instant and the next call with a valid product goes
back to the network (non-empty call list) instead of failing. -/
theorem GetAccessToken_expiry (config : Config) (st : AuthState) (o : AuthOracle)
    (product path subKey u k : String) (pcalls : List NetCall) (tr : TokenResponse)
    (hc : cacheValid st o.now = false)
    (hcred : resolveCredentials config o = (.ok (u, k), pcalls))
    (hpath : tokenPathAndKey config product = .ok (path, subKey))
    (htok : o.tokenResult path = .ok tr) :
    ((GetAccessToken config st o product).2.1).tokenExpiry = o.now + (tr.expires_in - 60) ∧
    (tr.expires_in = 3600 →
        ((GetAccessToken config st o product).2.1).tokenExpiry = o.now + 3540) ∧
    (tr.expires_in ≤ 60 →
        ((GetAccessToken config st o product).2.1).tokenExpiry ≤ o.now ∧
        ∀ (o2 : AuthOracle) (p2 path2 sk2 : String), o.now ≤ o2.now →
          tokenPathAndKey config p2 = .ok (path2, sk2) →
          cacheValid (GetAccessToken config st o product).2.1 o2.now = false ∧
          (GetAccessToken config (GetAccessToken config st o product).2.1 o2 p2).2.2 ≠ []) := by
  rw [GetAccessToken_fetch_eq config st o product path subKey u k pcalls tr hc hcred hpath htok]
  refine ⟨rfl, ?_, ?_⟩
  · intro h36
    dsimp only
    rw [h36]
    norm_num
  · intro hle
    refine ⟨by dsimp only; omega, ?_⟩
    intro o2 p2 path2 sk2 hnow hpath2
    have hcv : cacheValid
        { accessToken := tr.access_token, tokenExpiry := o.now + (tr.expires_in - 60) }
        o2.now = false := by
      simp only [cacheValid, Bool.and_eq_false_iff, decide_eq_false_iff_not]
      right
      dsimp only
      omega
    exact ⟨hcv, GetAccessToken_calls_ne_nil config _ o2 p2 path2 sk2 hcv hpath2⟩

/-- Witness for C6: a fetch with `expires_in = 3600` at time 0 caches
expiry 3540, and a fetch with `expires_in = 30` caches an expiry that is
already not in the future, so a follow-up call at time 10 issues network
calls again. -/
theorem GetAccessToken_expiry_witness :
    ((GetAccessToken sampleAuthConfig initialAuthState sampleOracleT1 "collection").2.1).tokenExpiry
        = sampleOracleT1.now + 3540 ∧
    ((GetAccessToken sampleAuthConfig initialAuthState sampleOracleShort "collection").2.1).tokenExpiry
        ≤ sampleOracleShort.now ∧
    (cacheValid (GetAccessToken sampleAuthConfig initialAuthState sampleOracleShort "collection").2.1
        sampleOracleT2.now = false ∧
     (GetAccessToken sampleAuthConfig
        (GetAccessToken sampleAuthConfig initialAuthState sampleOracleShort "collection").2.1
        sampleOracleT2 "disbursement").2.2 ≠ []) :=
  ⟨(GetAccessToken_expiry sampleAuthConfig initialAuthState sampleOracleT1 "collection"
      "/collection/token/" "sub" "user" "key" []
      { access_token := "T1", token_type := "Bearer", expires_in := 3600 }
      rfl rfl rfl rfl).2.1 rfl,
   ((GetAccessToken_expiry sampleAuthConfig initialAuthState sampleOracleShort "collection"
      "/collection/token/" "sub" "user" "key" []
      { access_token := "TS", token_type := "Bearer", expires_in := 30 }
      rfl rfl rfl rfl).2.2 (by decide)).1,
   ((GetAccessToken_expiry sampleAuthConfig initialAuthState sampleOracleShort "collection"
      "/collection/token/" "sub" "user" "key" []
      { access_token := "TS", token_type := "Bearer", expires_in := 30 }
      rfl rfl rfl rfl).2.2 (by decide)).2 sampleOracleT2 "disbursement"
      "/disbursement/token/" "dis" (by decide) rfl⟩

/-- Counterexample for C3: on a sandbox configuration with no API
user/key, `GetAccessToken` with product "unknown" provisions sandbox
credentials FIRST — two network calls (`POST /v1_0/apiuser` and
`POST .../apikey`) — and only then fails with the unknown-product
error.  The claim's "makes no network call" is therefore false for this
configuration and cache state. -/
theorem GetAccessToken_unknown_product_counterexample :
    GetAccessToken sampleAuthConfigNoCreds initialAuthState sampleOracleT1 "unknown" =
      (.error "unknown product: unknown", initialAuthState,
       [.createUser "uuid-1" "sub", .createKey "uuid-1" "sub"]) := rfl

/-- C3 (amended): without a valid cached token, `GetAccessToken` with a
product other than "collection" or "disbursement" fails with the
unknown-product error and never issues a token-exchange call; it makes
no network call at all UNLESS the environment is sandbox with the API
user or key unset, in which case the sandbox-provisioning calls are
issued before the product check (and, if provisioning succeeds, the
call still fails with the unknown-product error and exactly those
provisioning calls on the wire). -/
theorem GetAccessToken_unknown_product (config : Config) (st : AuthState) (o : AuthOracle)
    (product : String)
    (hc : cacheValid st o.now = false)
    (h1 : product ≠ "collection") (h2 : product ≠ "disbursement") :
    (¬ (config.Environment = Sandbox ∧ (config.APIUser = "" ∨ config.APIKey = "")) →
        GetAccessToken config st o product =
          (.error ("unknown product: " ++ product), st, [])) ∧
    (∀ (u k : String) (pcalls : List NetCall),
        resolveCredentials config o = (.ok (u, k), pcalls) →
        GetAccessToken config st o product =
          (.error ("unknown product: " ++ product), st, pcalls)) ∧
    (∀ p sk au ak : String,
        NetCall.tokenExchange p sk au ak ∉ (GetAccessToken config st o product).2.2) := by
  have hpath := tokenPathAndKey_unknown config product h1 h2
  refine ⟨?_, ?_, ?_⟩
  · intro hnp
    exact GetAccessToken_unknown_eq config st o product _ config.APIUser config.APIKey []
      hc (resolveCredentials_not_needed config o hnp) hpath
  · intro u k pcalls hcred
    exact GetAccessToken_unknown_eq config st o product _ u k pcalls hc hcred hpath
  · intro p sk au ak
    rcases hcred : resolveCredentials config o with ⟨res, pcalls⟩
    cases res with
    | error e =>
        rw [GetAccessToken_cred_error_eq config st o product e pcalls hc hcred]
        have := resolveCredentials_no_tokenExchange config o p sk au ak
        rw [hcred] at this
        exact this
    | ok cred =>
        rcases cred with ⟨u, k⟩
        rw [GetAccessToken_unknown_eq config st o product _ u k pcalls hc hcred hpath]
        have := resolveCredentials_no_tokenExchange config o p sk au ak
        rw [hcred] at this
        exact this

/-- Witness for C3 (amended): with credentials configured, the unknown
product yields the error with an empty call list; without credentials,
the call list never contains a token exchange. -/
theorem GetAccessToken_unknown_product_witness :
    GetAccessToken sampleAuthConfig initialAuthState sampleOracleT1 "unknown" =
      (.error "unknown product: unknown", initialAuthState, []) ∧
    (∀ p sk au ak : String,
        NetCall.tokenExchange p sk au ak ∉
          (GetAccessToken sampleAuthConfigNoCreds initialAuthState sampleOracleT1
            "unknown").2.2) :=
  ⟨(GetAccessToken_unknown_product sampleAuthConfig initialAuthState sampleOracleT1
      "unknown" rfl (by decide) (by decide)).1 (by decide),
   (GetAccessToken_unknown_product sampleAuthConfigNoCreds initialAuthState sampleOracleT1
      "unknown" rfl (by decide) (by decide)).2.2⟩

/-- Counterexample for C1: after a successful `GetAccessToken` for
"collection" at time 0 (token "T1", `expires_in = 3600`, so expiry
3540), a `GetAccessToken` for "disbursement" at time 10 — whose token
endpoint would return a different token "T2" — does NOT overwrite the
cached token: it returns the collection token "T1" from the shared
cache, leaves the state unchanged and issues no network call.  The
claim's "overwrites the previously cached token on every such call" is
therefore false; within the expiry window the shared cache is reused
across products, not replaced. -/
theorem GetAccessToken_cross_product_counterexample :
    GetAccessToken sampleAuthConfig initialAuthState sampleOracleT1 "collection" =
      (.ok "T1", { accessToken := "T1", tokenExpiry := 3540 },
       [.tokenExchange "/collection/token/" "sub" "user" "key"]) ∧
    GetAccessToken sampleAuthConfig { accessToken := "T1", tokenExpiry := 3540 }
        sampleOracleT2 "disbursement" =
      (.ok "T1", { accessToken := "T1", tokenExpiry := 3540 }, []) :=
  ⟨rfl, rfl⟩

/-- C1 (amended): the authenticator keeps a single shared token-cache
field not keyed by product.  While the cached token is valid the cache
hit ignores the product entirely, so a call for the other product
returns the first product's token unchanged (cross-product reuse, no
overwrite).  Only when the cache is empty or expired does a successful
call — for either product — overwrite the one shared field with the
newly fetched token. -/
theorem GetAccessToken_shared_cache (config : Config) (st : AuthState) (o : AuthOracle)
    (product : String) :
    (cacheValid st o.now = true →
        GetAccessToken config st o product = (.ok st.accessToken, st, [])) ∧
    (cacheValid st o.now = false →
        ∀ (u k path sk : String) (pcalls : List NetCall) (tr : TokenResponse),
          resolveCredentials config o = (.ok (u, k), pcalls) →
          tokenPathAndKey config product = .ok (path, sk) →
          o.tokenResult path = .ok tr →
          (GetAccessToken config st o product).2.1 =
            { accessToken := tr.access_token,
              tokenExpiry := o.now + (tr.expires_in - 60) }) := by
  constructor
  · exact GetAccessToken_cache_hit_eq config st o product
  · intro hc u k path sk pcalls tr hcred hpath htok
    rw [GetAccessToken_fetch_eq config st o product path sk u k pcalls tr hc hcred hpath htok]

/-- Witness for C1 (amended): a disbursement call against a valid
collection token returns that token unchanged, and a disbursement call
against an expired cache overwrites the shared field with "T2". -/
theorem GetAccessToken_shared_cache_witness :
    GetAccessToken sampleAuthConfig { accessToken := "T1", tokenExpiry := 3540 }
        sampleOracleT2 "disbursement" =
      (.ok "T1", { accessToken := "T1", tokenExpiry := 3540 }, []) ∧
    (GetAccessToken sampleAuthConfig { accessToken := "T1", tokenExpiry := 3 }
        sampleOracleT2 "disbursement").2.1 =
      { accessToken := "T2", tokenExpiry := 10 + (3600 - 60) } :=
  ⟨(GetAccessToken_shared_cache sampleAuthConfig
      { accessToken := "T1", tokenExpiry := 3540 } sampleOracleT2 "disbursement").1 rfl,
   (GetAccessToken_shared_cache sampleAuthConfig
      { accessToken := "T1", tokenExpiry := 3 } sampleOracleT2 "disbursement").2 rfl
      "user" "key" "/disbursement/token/" "dis" []
      { access_token := "T2", token_type := "Bearer", expires_in := 3600 } rfl rfl rfl⟩

end Gomomo
